import Mathlib

/-!
Verification of the QRL wallet daemon against its specification.

The repository under verification contains the wallet RPC service
(src/qrl/services/WalletAPIService.py), the command line front end
(src/qrl/cli.py) and the daemon test suite (tests/daemon/test_walletd.py).
The daemon core (WalletD), the seed codec and the XMSS engine are exercised
by those files but their sources are not part of the repository snapshot;
where a definition below embeds one of them it is modelled from the
specification and its doc comment says so explicitly.
-/

namespace QRL

/-! ## Seed codec: hex form (spec section 4.2)

51-byte extended seeds have a 102 character lowercase hex form.  These
definitions follow the spec's codec contract: strict lowercase digits,
length checked, bytes round-trip. -/

/-- Lowercase hex digit for a value below 16. -/
def hexDigit (n : Nat) : Char :=
  if n < 10 then Char.ofNat (48 + n) else Char.ofNat (87 + n)

/-- Value of a lowercase hex digit character, if it is one. -/
def hexVal (c : Char) : Option Nat :=
  let n := c.toNat
  if 48 ≤ n ∧ n ≤ 57 then some (n - 48)
  else if 97 ≤ n ∧ n ≤ 102 then some (n - 87)
  else none

/-- Bytes to hex characters, two lowercase digits per byte. -/
def bytesToHexChars : List Nat → List Char
  | [] => []
  | b :: rest => hexDigit (b / 16) :: hexDigit (b % 16) :: bytesToHexChars rest

/-- Hex characters back to bytes; fails on odd length or a non-digit. -/
def hexCharsToBytes : List Char → Option (List Nat)
  | [] => some []
  | _ :: [] => none
  | c1 :: c2 :: rest => do
      let hi ← hexVal c1
      let lo ← hexVal c2
      let tail ← hexCharsToBytes rest
      pure ((16 * hi + lo) :: tail)

/-- Byte list to lowercase hex string (the codec's bin2hstr). -/
def bin2hstr (bs : List Nat) : String := ⟨bytesToHexChars bs⟩

/-- Hex string to byte list (the codec's hstr2bin). -/
def hstr2bin (s : String) : Option (List Nat) := hexCharsToBytes s.data

theorem hexVal_hexDigit : ∀ n : Nat, n < 16 → hexVal (hexDigit n) = some n := by
  decide

theorem bytesToHexChars_length (bs : List Nat) :
    (bytesToHexChars bs).length = 2 * bs.length := by
  induction bs with
  | nil => rfl
  | cons b rest ih => simp [bytesToHexChars, ih]; ring

theorem hexCharsToBytes_bytesToHexChars :
    ∀ bs : List Nat, (∀ b ∈ bs, b < 256) →
      hexCharsToBytes (bytesToHexChars bs) = some bs := by
  intro bs
  induction bs with
  | nil => intro _; rfl
  | cons b rest ih =>
    intro h
    have hb : b < 256 := h b (by simp)
    have hrest : ∀ x ∈ rest, x < 256 := fun x hx => h x (by simp [hx])
    have h1 : b / 16 < 16 := by omega
    have h2 : b % 16 < 16 := by omega
    have hbv : 16 * (b / 16) + b % 16 = b := by omega
    simp [bytesToHexChars, hexCharsToBytes, hexVal_hexDigit _ h1,
      hexVal_hexDigit _ h2, ih hrest, hbv]

/-- Round-trip law of the spec: bytes to hex to bytes is the identity on
byte lists. -/
theorem hstr2bin_bin2hstr (bs : List Nat) (h : ∀ b ∈ bs, b < 256) :
    hstr2bin (bin2hstr bs) = some bs :=
  hexCharsToBytes_bytesToHexChars bs h

theorem bin2hstr_length (bs : List Nat) : (bin2hstr bs).length = 2 * bs.length :=
  bytesToHexChars_length bs

/-! ## Seed codec: mnemonic packing (spec section 4.2)

The mnemonic form packs the 51 seed bytes MSB-first into 34 groups of
12 bits; each group is the dictionary index of one word.  Three bytes
yield two indices. -/

/-- Bytes to 12-bit word indices, MSB-first, three bytes per two indices. -/
def bytesToIdx : List Nat → List Nat
  | b0 :: b1 :: b2 :: rest =>
      (16 * b0 + b1 / 16) :: (256 * (b1 % 16) + b2) :: bytesToIdx rest
  | _ => []

/-- 12-bit word indices back to bytes, two indices per three bytes. -/
def idxToBytes : List Nat → List Nat
  | w0 :: w1 :: rest =>
      (w0 / 16) :: (16 * (w0 % 16) + w1 / 256) :: (w1 % 256) :: idxToBytes rest
  | _ => []

theorem idxToBytes_bytesToIdx :
    ∀ bs : List Nat, bs.length % 3 = 0 → (∀ b ∈ bs, b < 256) →
      idxToBytes (bytesToIdx bs) = bs
  | [], _, _ => rfl
  | [_], hl, _ => by simp at hl
  | [_, _], hl, _ => by simp at hl
  | b0 :: b1 :: b2 :: rest, hl, hb => by
      have hl' : rest.length % 3 = 0 := by simp at hl; omega
      have hb' : ∀ x ∈ rest, x < 256 := fun x hx => hb x (by simp [hx])
      have ih := idxToBytes_bytesToIdx rest hl' hb'
      have h0 : b0 < 256 := hb b0 (by simp)
      have h1 : b1 < 256 := hb b1 (by simp)
      have h2 : b2 < 256 := hb b2 (by simp)
      simp [bytesToIdx, idxToBytes, ih]
      refine ⟨by omega, by omega, by omega⟩

theorem bytesToIdx_length :
    ∀ bs : List Nat, bs.length % 3 = 0 →
      (bytesToIdx bs).length = 2 * (bs.length / 3)
  | [], _ => rfl
  | [_], hl => by simp at hl
  | [_, _], hl => by simp at hl
  | _ :: _ :: _ :: rest, hl => by
      have hl' : rest.length % 3 = 0 := by simp at hl; omega
      have ih := bytesToIdx_length rest hl'
      simp [bytesToIdx, ih]
      omega

theorem bytesToIdx_lt :
    ∀ bs : List Nat, (∀ b ∈ bs, b < 256) → ∀ i ∈ bytesToIdx bs, i < 4096
  | [], _ => by simp [bytesToIdx]
  | [_], _ => by simp [bytesToIdx]
  | [_, _], _ => by simp [bytesToIdx]
  | b0 :: b1 :: b2 :: rest, hb => by
      have hb' : ∀ x ∈ rest, x < 256 := fun x hx => hb x (by simp [hx])
      have h0 : b0 < 256 := hb b0 (by simp)
      have h1 : b1 < 256 := hb b1 (by simp)
      have h2 : b2 < 256 := hb b2 (by simp)
      intro i hi
      simp [bytesToIdx] at hi
      rcases hi with h | h | h
      · omega
      · omega
      · exact bytesToIdx_lt rest hb' i h

/-! ## Seed scenario 1 (spec section 8, tests/daemon/test_walletd.py lines 22-28)

The literal hex seed, its 51 bytes, the qaddress the spec states for it,
and its 34-word mnemonic. -/

def scenarioHex : String :=
  "0104008441d43524996f76236141d16b7b324323abf796e77ad7c874622a82f5744bb803f9b404d25733d0db82be7ac6f3c4cf"

def scenarioBytes : List Nat :=
  [1, 4, 0, 132, 65, 212, 53, 36, 153, 111, 118, 35, 97, 65, 209, 107, 123,
   50, 67, 35, 171, 247, 150, 231, 122, 215, 200, 116, 98, 42, 130, 245,
   116, 75, 184, 3, 249, 180, 4, 210, 87, 51, 208, 219, 130, 190, 122, 198,
   243, 196, 207]

def scenarioQaddress : String :=
  "Q010400ff39df1ba4d1d5b8753e6d04c51c34b95b01fc3650c10ca7b296a18bdc105412c59d0b3b"

/-- Modelled from the spec: the fixed 4096-word mnemonic dictionary is not
under src/.  These are its entries for the 34 words of seed scenario 1; the
index of each word is determined by the spec's packing law (12 bits per
word, MSB-first) applied to the scenario seed bytes. -/
def scenarioPairs : List (String × Nat) :=
  [("absorb", 16), ("drank", 1024), ("lute", 2116), ("brick", 468),
   ("cure", 850), ("evil", 1177), ("inept", 1783), ("group", 1571),
   ("grey", 1556), ("breed", 465), ("hood", 1719), ("reefy", 2866),
   ("eager", 1074), ("depict", 939), ("weed", 3961), ("image", 1767),
   ("law", 1965), ("legacy", 1992), ("jockey", 1862), ("calm", 554),
   ("lover", 2095), ("freeze", 1396), ("fact", 1211), ("lively", 2051),
   ("wide", 3995), ("dread", 1028), ("spiral", 3365), ("jaguar", 1843),
   ("span", 3341), ("rinse", 2946), ("salty", 3047), ("pulsar", 2758),
   ("violet", 3900), ("fare", 1231)]

def scenarioWords : List String := scenarioPairs.map Prod.fst

/-- Modelled from the spec: dictionary word for a 12-bit index.  The 34
indices used by seed scenario 1 are pinned to the scenario words; every
other index is rendered as a placeholder word, the character x followed by
four hex digits (the real word list is not under src/ and the claims do not
depend on its remaining entries). -/
def wordOfIdx (n : Nat) : String :=
  match scenarioPairs.find? (fun p => p.2 == n) with
  | some p => p.1
  | none => "x" ++ bin2hstr [n / 256, n % 256]

/-- Modelled from the spec: dictionary index of a word, inverse of
wordOfIdx; an unknown word yields none. -/
def idxOfWord (w : String) : Option Nat :=
  match scenarioPairs.find? (fun p => p.1 == w) with
  | some p => some p.2
  | none =>
      match w.data with
      | 'x' :: cs =>
          match hexCharsToBytes cs with
          | some [a, b] => some (256 * a + b)
          | _ => none
      | _ => none

theorem idxOfWord_scenario : ∀ p ∈ scenarioPairs, idxOfWord p.1 = some p.2 := by
  decide

theorem scenario_word_head : ∀ p ∈ scenarioPairs, p.1.data.head? ≠ some 'x' := by
  decide

theorem idxOfWord_wordOfIdx (n : Nat) (hn : n < 4096) :
    idxOfWord (wordOfIdx n) = some n := by
  unfold wordOfIdx
  cases hfind : scenarioPairs.find? (fun p => p.2 == n) with
  | some p =>
      have hmem : p ∈ scenarioPairs := List.mem_of_find?_eq_some hfind
      have hpn : p.2 = n := by
        have := List.find?_some hfind
        simpa using this
      simp [idxOfWord_scenario p hmem, hpn]
  | none =>
      have hdata : ("x" ++ bin2hstr [n / 256, n % 256]).data
          = 'x' :: bytesToHexChars [n / 256, n % 256] := by
        simp [bin2hstr, String.data_append]
      have hnone : scenarioPairs.find?
          (fun p => p.1 == ("x" ++ bin2hstr [n / 256, n % 256])) = none := by
        rw [List.find?_eq_none]
        intro p hp hcontra
        have hpe : p.1 = "x" ++ bin2hstr [n / 256, n % 256] := eq_of_beq hcontra
        have hhead := scenario_word_head p hp
        rw [hpe, hdata] at hhead
        simp at hhead
      have hbytes : hexCharsToBytes (bytesToHexChars [n / 256, n % 256])
          = some [n / 256, n % 256] := by
        apply hexCharsToBytes_bytesToHexChars
        intro b hb
        simp at hb
        rcases hb with h | h <;> omega
      rw [idxOfWord, hnone]
      rw [hdata]
      simp only [hbytes]
      congr 1
      omega

/-- Dictionary lookup of a whole mnemonic, word by word; fails on the first
unknown word (the spec's UnknownWord failure). -/
def lookupWords : List String → Option (List Nat)
  | [] => some []
  | w :: ws => do
      let i ← idxOfWord w
      let rest ← lookupWords ws
      pure (i :: rest)

theorem lookupWords_wordOfIdx :
    ∀ l : List Nat, (∀ i ∈ l, i < 4096) →
      lookupWords (l.map wordOfIdx) = some l := by
  intro l
  induction l with
  | nil => intro _; rfl
  | cons i rest ih =>
      intro h
      have hi : i < 4096 := h i (by simp)
      have hrest : ∀ x ∈ rest, x < 4096 := fun x hx => h x (by simp [hx])
      simp [lookupWords, idxOfWord_wordOfIdx i hi, ih hrest]

/-! ## Wallet daemon model

The daemon core (WalletD) is exercised by tests/daemon/test_walletd.py but
its source is not under src/; the definitions of this section are modelled
from the specification (sections 3, 4.5, 4.6, 6, 7). -/

/-- Error kinds of spec section 7. -/
inductive WErr
  | walletLocked
  | walletDecryption
  | unknownSigner
  | otsIndexConflict
  | otsExhausted
  | invalidSeed
  | malformedAddress
  | nodeRejected
  | nodeUnavailable
  | validation
deriving DecidableEq, Repr

/-- Modelled from the spec: a wallet address item (section 3): cached
qaddress, extended seed, tree height and the OTS index cursor, the next
unused leaf index. -/
structure AddressItem where
  qaddress : String
  seed : List Nat
  height : Nat
  otsIndex : Nat
deriving DecidableEq, Repr

/-- Modelled from the spec: the persisted daemon state (sections 4.5, 4.6).
passphrase holds the passphrase under which the encrypted blobs decrypt
(the AES key input of section 4.5); locked is the lock-state flag of the
section 4.6 lifecycle. -/
structure DaemonState where
  items : List AddressItem
  encrypted : Bool
  locked : Bool
  passphrase : Option String
deriving DecidableEq, Repr

def emptyDaemon : DaemonState := ⟨[], false, false, none⟩

/-- Modelled from the spec: section 4.3 address derivation.  The hash
primitives it uses are not under src/: the digest over the key material is
modelled by the seed bytes themselves, which keeps the derivation a
deterministic function of the extended seed; on the seed of scenario 1 the
value is pinned to the qaddress the spec states for it. -/
def xmss_qaddress (seed : List Nat) : String :=
  if seed = scenarioBytes then scenarioQaddress
  else "Q" ++ bin2hstr seed

/-- Modelled from the spec: the tree-height field of the 3-byte descriptor,
read as the second descriptor byte (the scenario descriptor 01 04 00
belongs to a height-4 tree). -/
def heightOfSeed (seed : List Nat) : Nat := (seed.drop 1).headD 0

/-- Seed recovery input: a hex seed string or a mnemonic word list. -/
inductive SeedInput
  | hexSeed (s : String)
  | mnemonicWords (ws : List String)
deriving DecidableEq, Repr

/-- Modelled from the spec: AddAddressFromSeed accepts a 102-character hex
seed or a 34-word mnemonic (section 6); a wrong length, a non-hex digit or
an unknown word is InvalidSeed (sections 4.2, 7). -/
def parseSeedInput : SeedInput → Except WErr (List Nat)
  | .hexSeed s =>
      if s.length = 102 then
        match hstr2bin s with
        | some bs => .ok bs
        | none => .error .invalidSeed
      else .error .invalidSeed
  | .mnemonicWords ws =>
      if ws.length = 34 then
        match lookupWords ws with
        | some idxs => .ok (idxToBytes idxs)
        | none => .error .invalidSeed
      else .error .invalidSeed

/-- Transaction variants and their variant-specific fields (section 4.4). -/
inductive TxVariant
  | transfer (addrsTo : List String) (amounts : List Nat)
  | message (message : List Nat)
  | token (symbol tokenName : List Nat) (owner : String) (decimals : Nat)
      (addrs : List String) (amounts : List Nat)
  | transferToken (tokenTxhash : String) (addrsTo : List String) (amounts : List Nat)
  | slave (slavePks : List (List Nat)) (accessTypes : List Nat)
deriving DecidableEq, Repr

/-- Modelled from the spec: the variant bound checks of section 4.4, all
surfacing as the Validation error kind of section 7. -/
def validateVariant : TxVariant → Except WErr Unit
  | .transfer addrsTo amounts =>
      if addrsTo.length = 0 then .error .validation
      else if addrsTo.length ≠ amounts.length then .error .validation
      else if amounts.any (· == 0) then .error .validation
      else .ok ()
  | .message msg =>
      if 1 ≤ msg.length ∧ msg.length ≤ 80 then .ok () else .error .validation
  | .token sym tokenName _ decimals _ amounts =>
      if 10 < sym.length then .error .validation
      else if 30 < tokenName.length then .error .validation
      else if 19 < decimals then .error .validation
      else if amounts.any (· == 0) then .error .validation
      else .ok ()
  | .transferToken _ addrsTo amounts =>
      if addrsTo.length ≠ amounts.length then .error .validation else .ok ()
  | .slave pks accessTypes =>
      if pks.length ≠ accessTypes.length then .error .validation
      else if 100 < pks.length then .error .validation
      else .ok ()

/-- Modelled from the spec: section 4.1 exposes sign as a pure function of
(seed, index, message).  The XMSS engine is not under src/, so the emitted
signature is modelled as the (seed, index) argument pair itself; all the
claims need is that a signature deterministically bound to the key and the
used leaf index is attached. -/
def xmss_sign (seed : List Nat) (idx : Nat) : List Nat × Nat := (seed, idx)

/-- A relayed transaction: envelope fields, the OTS index it consumed and
the attached signature (section 4.4). -/
structure SignedTx where
  signer : String
  masterAddr : Option String
  fee : Nat
  variant : TxVariant
  otsIndexUsed : Nat
  signature : List Nat × Nat
deriving DecidableEq, Repr

/-- Outcome of the outbound PushTransaction call: node accepts, node
rejects, or the call never completes (RPC cancellation, timeout, or a
crash between persisting the bump and the node call). -/
inductive NodeResp
  | submitted
  | rejected
  | aborted
deriving DecidableEq, Repr

/-- Set the cursor of every item of the given qaddress. -/
def bumpCursor (items : List AddressItem) (signer : String) (n : Nat) :
    List AddressItem :=
  items.map (fun it => if it.qaddress = signer then { it with otsIndex := n } else it)

/-- Modelled from the spec: the shared relay pipeline of section 4.6.
Returns the call's outcome together with the persisted state.  Failures of
steps 1-3 (lock gate, signer resolution, OTS validation, variant bounds)
leave the state unchanged; once step 4 has persisted the cursor bump the
bump is kept whatever the node answers — rejection, cancellation and crash
included (the never-rollback rationale of section 4.6). -/
def relay_txn (s : DaemonState) (signer : String) (otsIdx : Nat)
    (v : TxVariant) (fee : Nat) (master : Option String) (node : NodeResp) :
    Except WErr SignedTx × DaemonState :=
  if s.locked then (.error .walletLocked, s)
  else
    match s.items.find? (fun it => it.qaddress == signer) with
    | none => (.error .unknownSigner, s)
    | some it =>
        if otsIdx < it.otsIndex then (.error .otsIndexConflict, s)
        else if 2 ^ it.height ≤ otsIdx then (.error .otsExhausted, s)
        else
          match validateVariant v with
          | .error e => (.error e, s)
          | .ok _ =>
              let s2 := { s with items := bumpCursor s.items signer (otsIdx + 1) }
              let tx : SignedTx :=
                ⟨signer, master, fee, v, otsIdx, xmss_sign it.seed otsIdx⟩
              match node with
              | .submitted => (.ok tx, s2)
              | .rejected => (.error .nodeRejected, s2)
              | .aborted => (.error .nodeUnavailable, s2)

/-- Modelled from the spec: RelayTransferTxn (section 6). -/
def relay_transfer_txn (s : DaemonState) (qaddressesTo : List String)
    (amounts : List Nat) (fee : Nat) (master : Option String)
    (signer : String) (otsIdx : Nat) (node : NodeResp) :
    Except WErr SignedTx × DaemonState :=
  relay_txn s signer otsIdx (.transfer qaddressesTo amounts) fee master node

/-- Modelled from the spec: RelayMessageTxn (section 6). -/
def relay_message_txn (s : DaemonState) (msg : List Nat) (fee : Nat)
    (master : Option String) (signer : String) (otsIdx : Nat) (node : NodeResp) :
    Except WErr SignedTx × DaemonState :=
  relay_txn s signer otsIdx (.message msg) fee master node

/-- Modelled from the spec: RelayTokenTxn (section 6). -/
def relay_token_txn (s : DaemonState) (symbol tokenName : List Nat)
    (owner : String) (decimals : Nat) (addrs : List String)
    (amounts : List Nat) (fee : Nat) (master : Option String)
    (signer : String) (otsIdx : Nat) (node : NodeResp) :
    Except WErr SignedTx × DaemonState :=
  relay_txn s signer otsIdx (.token symbol tokenName owner decimals addrs amounts)
    fee master node

/-- Modelled from the spec: RelayTransferTokenTxn (section 6). -/
def relay_transfer_token_txn (s : DaemonState) (qaddressesTo : List String)
    (amounts : List Nat) (tokenTxhash : String) (fee : Nat)
    (master : Option String) (signer : String) (otsIdx : Nat) (node : NodeResp) :
    Except WErr SignedTx × DaemonState :=
  relay_txn s signer otsIdx (.transferToken tokenTxhash qaddressesTo amounts)
    fee master node

/-- Modelled from the spec: RelaySlaveTxn (section 6). -/
def relay_slave_txn (s : DaemonState) (slavePks : List (List Nat))
    (accessTypes : List Nat) (fee : Nat) (master : Option String)
    (signer : String) (otsIdx : Nat) (node : NodeResp) :
    Except WErr SignedTx × DaemonState :=
  relay_txn s signer otsIdx (.slave slavePks accessTypes) fee master node

/-- Modelled from the spec: AddNewAddress (sections 3, 6); the fresh random
seed is an explicit argument since randomness is external to the model.
Mutating while LOCKED is WalletLocked (section 4.6). -/
def add_new_address (s : DaemonState) (height : Nat) (freshSeed : List Nat) :
    Except WErr (String × DaemonState) :=
  if s.locked then .error .walletLocked
  else
    let q := xmss_qaddress freshSeed
    .ok (q, { s with items := s.items ++ [⟨q, freshSeed, height, 0⟩] })

/-- Modelled from the spec: AddAddressFromSeed (section 6) with the append
semantics of section 4.5: an already-present seed is a no-op returning the
existing qaddress; a fresh seed appends an item with cursor 0. -/
def add_address_from_seed (s : DaemonState) (inp : SeedInput) :
    Except WErr (String × DaemonState) :=
  if s.locked then .error .walletLocked
  else
    match parseSeedInput inp with
    | .error e => .error e
    | .ok bs =>
        match s.items.find? (fun it => it.seed == bs) with
        | some it => .ok (it.qaddress, s)
        | none =>
            let q := xmss_qaddress bs
            .ok (q, { s with items := s.items ++ [⟨q, bs, heightOfSeed bs, 0⟩] })

/-- Modelled from the spec: RemoveAddress (sections 4.5, 6): removing by
qaddress succeeds iff present and rewrites the file; the boolean reports
whether anything was removed. -/
def remove_address (s : DaemonState) (q : String) :
    Except WErr (Bool × DaemonState) :=
  if s.locked then .error .walletLocked
  else if s.items.any (fun it => it.qaddress == q) then
    .ok (true, { s with items := s.items.filter (fun it => it.qaddress != q) })
  else .ok (false, s)

/-- Modelled from the spec: GetRecoverySeeds (section 6) fails if locked,
else returns the hex seed and the mnemonic of the item. -/
def get_recovery_seeds (s : DaemonState) (q : String) :
    Except WErr (String × List String) :=
  if s.locked then .error .walletLocked
  else
    match s.items.find? (fun it => it.qaddress == q) with
    | none => .error .unknownSigner
    | some it => .ok (bin2hstr it.seed, (bytesToIdx it.seed).map wordOfIdx)

/-- Modelled from the spec: ListAddresses, a read-only operation allowed in
every lock state since the qaddress stays in cleartext (section 4.5). -/
def list_address (s : DaemonState) : Except WErr (List String) :=
  .ok (s.items.map (·.qaddress))

/-- Modelled from the spec: GetWalletInfo (section 6): version, address
count, encrypted flag; read-only. -/
def get_wallet_info (s : DaemonState) : Except WErr (Nat × Nat × Bool) :=
  .ok (1, s.items.length, s.encrypted)

/-- Modelled from the spec: GetBalance is forwarded to the node (section 6);
the node's answer is an explicit argument and the wallet is only read, so
the call succeeds in every lock state. -/
def get_balance (_s : DaemonState) (_q : String) (nodeBalance : Nat) :
    Except WErr Nat :=
  .ok nodeBalance

/-- Modelled from the spec: GetTransaction is forwarded to the node
(section 6); read-only, succeeds in every lock state. -/
def get_transaction (_s : DaemonState) (_txhash : String) (nodeTx : SignedTx)
    (confirmations : Nat) : Except WErr (SignedTx × Nat) :=
  .ok (nodeTx, confirmations)

/-- Modelled from the spec: EncryptWallet (section 4.6); requires a
plaintext, non-empty wallet. -/
def encrypt_wallet (s : DaemonState) (pw : String) : Except WErr DaemonState :=
  if s.locked then .error .walletLocked
  else if s.encrypted then .error .validation
  else if s.items.length = 0 then .error .validation
  else .ok { s with encrypted := true, passphrase := some pw }

/-- Modelled from the spec: LockWallet (section 4.6); meaningful only for
an encrypted wallet. -/
def lock_wallet (s : DaemonState) : Except WErr DaemonState :=
  if s.encrypted then .ok { s with locked := true } else .error .validation

/-- Modelled from the spec: UnlockWallet (section 4.6): the wrong
passphrase fails decryption (the MAC mismatch of section 4.5) and the
wallet stays locked; the right one unlocks. -/
def unlock_wallet (s : DaemonState) (pw : String) : Except WErr DaemonState :=
  if !s.encrypted then .error .validation
  else if s.passphrase = some pw then .ok { s with locked := false }
  else .error .walletDecryption

/-- Modelled from the spec: ChangePassphrase (section 4.6): a wrong old
passphrase fails decryption and changes nothing; the right one re-encrypts
under the new passphrase. -/
def change_passphrase (s : DaemonState) (oldPw newPw : String) :
    Except WErr DaemonState :=
  if !s.encrypted then .error .validation
  else if s.passphrase = some oldPw then .ok { s with passphrase := some newPw }
  else .error .walletDecryption

/-- Modelled from the spec: one daemon operation, for quantifying over
operation sequences.  The relay constructor covers all five relay calls
(they share the pipeline) and, through its NodeResp argument, node
rejection, RPC cancellation and a crash during the outbound call. -/
inductive DaemonOp
  | addNew (height : Nat) (freshSeed : List Nat)
  | addFromSeed (inp : SeedInput)
  | removeAddr (q : String)
  | getSeeds (q : String)
  | encrypt (pw : String)
  | lock
  | unlock (pw : String)
  | changePw (oldPw newPw : String)
  | relay (signer : String) (otsIdx : Nat) (v : TxVariant) (fee : Nat)
      (master : Option String) (node : NodeResp)
  | crashRestart
deriving DecidableEq, Repr

def DaemonOp.isRemoveAddr : DaemonOp → Bool
  | .removeAddr _ => true
  | _ => false

/-- Modelled from the spec: the persisted state after one operation.  A
failed operation leaves the persisted state as it was (except the relay
pipeline, whose cursor bump of step 4 survives later failure); a crash and
restart reloads the wallet file, so the items survive and an encrypted
wallet comes back locked. -/
def stepState (s : DaemonState) : DaemonOp → DaemonState
  | .addNew h fs =>
      match add_new_address s h fs with
      | .ok p => p.2
      | .error _ => s
  | .addFromSeed inp =>
      match add_address_from_seed s inp with
      | .ok p => p.2
      | .error _ => s
  | .removeAddr q =>
      match remove_address s q with
      | .ok p => p.2
      | .error _ => s
  | .getSeeds _ => s
  | .encrypt pw =>
      match encrypt_wallet s pw with
      | .ok s2 => s2
      | .error _ => s
  | .lock =>
      match lock_wallet s with
      | .ok s2 => s2
      | .error _ => s
  | .unlock pw =>
      match unlock_wallet s pw with
      | .ok s2 => s2
      | .error _ => s
  | .changePw o n =>
      match change_passphrase s o n with
      | .ok s2 => s2
      | .error _ => s
  | .relay signer otsIdx v fee master node =>
      (relay_txn s signer otsIdx v fee master node).2
  | .crashRestart => { s with locked := s.encrypted }

def runOps (s : DaemonState) (ops : List DaemonOp) : DaemonState :=
  ops.foldl stepState s

/-- The persisted OTS cursor of the first item of a given qaddress. -/
def cursorOf (s : DaemonState) (q : String) : Option Nat :=
  (s.items.find? (fun it => it.qaddress == q)).map (·.otsIndex)

/-! ## Cursor monotonicity (spec invariant I1) -/

theorem cursorOf_items_eq (s s' : DaemonState) (h : s.items = s'.items)
    (q : String) : cursorOf s q = cursorOf s' q := by
  unfold cursorOf
  rw [h]

theorem cursorOf_append (s : DaemonState) (xs : List AddressItem) (q : String)
    (c : Nat) (hc : cursorOf s q = some c) :
    cursorOf { s with items := s.items ++ xs } q = some c := by
  unfold cursorOf at *
  obtain ⟨it, hit, hoi⟩ := Option.map_eq_some'.mp hc
  simp [List.find?_append, hit, hoi]

theorem find?_bumpCursor (items : List AddressItem) (signer q : String) (n : Nat) :
    (bumpCursor items signer n).find? (fun it => it.qaddress == q)
      = (items.find? (fun it => it.qaddress == q)).map
          (fun it => if it.qaddress = signer then { it with otsIndex := n } else it) := by
  have hcomp : ((fun it : AddressItem => it.qaddress == q) ∘
      (fun it : AddressItem =>
        if it.qaddress = signer then { it with otsIndex := n } else it))
      = fun it : AddressItem => it.qaddress == q := by
    funext it
    by_cases h : it.qaddress = signer <;> simp [Function.comp, h]
  unfold bumpCursor
  rw [List.find?_map, hcomp]

/-- Every outcome of the relay pipeline either leaves the state untouched
(a step 1-3 failure) or, once the OTS validation passed, persists exactly
the cursor bump of step 4 — whatever the node later answers. -/
theorem relay_txn_state (s : DaemonState) (signer : String) (otsIdx : Nat)
    (v : TxVariant) (fee : Nat) (master : Option String) (node : NodeResp) :
    (relay_txn s signer otsIdx v fee master node).2 = s ∨
    (∃ it, s.items.find? (fun i => i.qaddress == signer) = some it ∧
      it.otsIndex ≤ otsIdx ∧
      (relay_txn s signer otsIdx v fee master node).2
        = { s with items := bumpCursor s.items signer (otsIdx + 1) }) := by
  unfold relay_txn
  split
  · exact Or.inl rfl
  · cases hfind : s.items.find? (fun i => i.qaddress == signer) with
    | none => exact Or.inl rfl
    | some it =>
        split
        · exact Or.inl rfl
        next _x it' hit' =>
          injection hit' with hii
          subst hii
          by_cases h1 : otsIdx < it.otsIndex
          · rw [if_pos h1]
            exact Or.inl rfl
          · rw [if_neg h1]
            by_cases h2 : 2 ^ it.height ≤ otsIdx
            · rw [if_pos h2]
              exact Or.inl rfl
            · rw [if_neg h2]
              cases hv : validateVariant v with
              | error e => exact Or.inl rfl
              | ok u =>
                  refine Or.inr ⟨it, rfl, by omega, ?_⟩
                  cases node <;> rfl

theorem add_new_address_ok (s : DaemonState) (height : Nat) (fs : List Nat)
    (qa : String) (s' : DaemonState)
    (h : add_new_address s height fs = .ok (qa, s')) :
    ∃ x, s' = { s with items := s.items ++ [x] } := by
  unfold add_new_address at h
  split at h
  · cases h
  · cases h
    exact ⟨_, rfl⟩

theorem add_address_from_seed_ok (s : DaemonState) (inp : SeedInput)
    (qa : String) (s' : DaemonState)
    (h : add_address_from_seed s inp = .ok (qa, s')) :
    s' = s ∨ ∃ x, s' = { s with items := s.items ++ [x] } := by
  unfold add_address_from_seed at h
  split at h
  · cases h
  · split at h
    · cases h
    · split at h
      · cases h
        exact Or.inl rfl
      · cases h
        exact Or.inr ⟨_, rfl⟩

theorem encrypt_wallet_ok (s : DaemonState) (pw : String) (s' : DaemonState)
    (h : encrypt_wallet s pw = .ok s') : s'.items = s.items := by
  unfold encrypt_wallet at h
  split at h
  · cases h
  · split at h
    · cases h
    · split at h
      · cases h
      · cases h
        rfl

theorem lock_wallet_ok (s : DaemonState) (s' : DaemonState)
    (h : lock_wallet s = .ok s') : s'.items = s.items := by
  unfold lock_wallet at h
  split at h
  · cases h
    rfl
  · cases h

theorem unlock_wallet_ok (s : DaemonState) (pw : String) (s' : DaemonState)
    (h : unlock_wallet s pw = .ok s') : s'.items = s.items := by
  unfold unlock_wallet at h
  split at h
  · cases h
  · split at h
    · cases h
      rfl
    · cases h

theorem change_passphrase_ok (s : DaemonState) (oldPw newPw : String)
    (s' : DaemonState) (h : change_passphrase s oldPw newPw = .ok s') :
    s'.items = s.items := by
  unfold change_passphrase at h
  split at h
  · cases h
  · split at h
    · cases h
      rfl
    · cases h

/-- One daemon operation other than RemoveAddress never decreases the
persisted cursor of an item. -/
theorem cursorOf_stepState_le (s : DaemonState) (op : DaemonOp)
    (hop : op.isRemoveAddr = false) (q : String) (c : Nat)
    (hc : cursorOf s q = some c) :
    ∃ c', cursorOf (stepState s op) q = some c' ∧ c ≤ c' := by
  cases op with
  | removeAddr _ => simp [DaemonOp.isRemoveAddr] at hop
  | addNew height fs =>
      simp only [stepState]
      cases hres : add_new_address s height fs with
      | error e => exact ⟨c, hc, le_rfl⟩
      | ok p =>
          obtain ⟨qa, s'⟩ := p
          obtain ⟨x, rfl⟩ := add_new_address_ok s height fs qa s' hres
          exact ⟨c, cursorOf_append s _ q c hc, le_rfl⟩
  | addFromSeed inp =>
      simp only [stepState]
      cases hres : add_address_from_seed s inp with
      | error e => exact ⟨c, hc, le_rfl⟩
      | ok p =>
          obtain ⟨qa, s'⟩ := p
          rcases add_address_from_seed_ok s inp qa s' hres with rfl | ⟨x, rfl⟩
          · exact ⟨c, hc, le_rfl⟩
          · exact ⟨c, cursorOf_append s _ q c hc, le_rfl⟩
  | getSeeds _ => exact ⟨c, hc, le_rfl⟩
  | encrypt pw =>
      simp only [stepState]
      cases hres : encrypt_wallet s pw with
      | error e => exact ⟨c, hc, le_rfl⟩
      | ok s' =>
          refine ⟨c, ?_, le_rfl⟩
          rw [cursorOf_items_eq s' s (encrypt_wallet_ok s pw s' hres) q]
          exact hc
  | lock =>
      simp only [stepState]
      cases hres : lock_wallet s with
      | error e => exact ⟨c, hc, le_rfl⟩
      | ok s' =>
          refine ⟨c, ?_, le_rfl⟩
          rw [cursorOf_items_eq s' s (lock_wallet_ok s s' hres) q]
          exact hc
  | unlock pw =>
      simp only [stepState]
      cases hres : unlock_wallet s pw with
      | error e => exact ⟨c, hc, le_rfl⟩
      | ok s' =>
          refine ⟨c, ?_, le_rfl⟩
          rw [cursorOf_items_eq s' s (unlock_wallet_ok s pw s' hres) q]
          exact hc
  | changePw o n =>
      simp only [stepState]
      cases hres : change_passphrase s o n with
      | error e => exact ⟨c, hc, le_rfl⟩
      | ok s' =>
          refine ⟨c, ?_, le_rfl⟩
          rw [cursorOf_items_eq s' s (change_passphrase_ok s o n s' hres) q]
          exact hc
  | crashRestart => exact ⟨c, hc, le_rfl⟩
  | relay signer otsIdx v fee master node =>
      simp only [stepState]
      rcases relay_txn_state s signer otsIdx v fee master node with heq | ⟨it, hfind, hle, heq⟩
      · rw [heq]; exact ⟨c, hc, le_rfl⟩
      · rw [heq]
        by_cases hqs : q = signer
        · subst hqs
          have hqit : it.qaddress = q := by
            have := List.find?_some hfind
            exact eq_of_beq this
          have hcit : c = it.otsIndex := by
            unfold cursorOf at hc
            rw [hfind] at hc
            simpa using hc.symm
          refine ⟨otsIdx + 1, ?_, by omega⟩
          unfold cursorOf
          simp only [find?_bumpCursor, hfind, Option.map_some']
          simp [hqit]
        · refine ⟨c, ?_, le_rfl⟩
          unfold cursorOf at *
          obtain ⟨it0, hit0, hoi0⟩ := Option.map_eq_some'.mp hc
          have hq0 : it0.qaddress = q := by
            have hb := List.find?_some hit0
            exact eq_of_beq hb
          simp only [find?_bumpCursor, hit0, Option.map_some']
          have hns : ¬ it0.qaddress = signer := by
            rw [hq0]; exact hqs
          simp [hns, hoi0]

/-- Claim C1: over every sequence of daemon operations drawn from the
claim's list — relay calls with any node outcome (submission, rejection,
cancellation, crash during the outbound call), lock, unlock, encryption,
passphrase change, crash and restart, and additions — the persisted OTS
index cursor of a wallet item never decreases.  (RemoveAddress ends the
item's lifetime and is the one operation excluded, matching the claim's
operation list.) -/
theorem C1_ots_cursor_monotone (s : DaemonState) (ops : List DaemonOp)
    (hops : ∀ op ∈ ops, op.isRemoveAddr = false) (q : String) (c : Nat)
    (hc : cursorOf s q = some c) :
    ∃ c', cursorOf (runOps s ops) q = some c' ∧ c ≤ c' := by
  revert hops hc
  induction ops generalizing s c with
  | nil =>
      intro _ hc
      exact ⟨c, hc, le_rfl⟩
  | cons op rest ih =>
      intro hops hc
      obtain ⟨c1, hc1, hle1⟩ :=
        cursorOf_stepState_le s op (hops op (by simp)) q c hc
      obtain ⟨c2, hc2, hle2⟩ :=
        ih (stepState s op) c1 (fun o ho => hops o (by simp [ho])) hc1
      exact ⟨c2, by simpa [runOps] using hc2, le_trans hle1 hle2⟩

def c1DemoState : DaemonState :=
  ⟨[⟨"Qdemo", List.replicate 51 7, 4, 0⟩], false, false, none⟩

def c1DemoOps : List DaemonOp :=
  [.relay "Qdemo" 0 (.transfer ["Qa"] [5]) 1 none .submitted,
   .relay "Qdemo" 1 (.transfer ["Qa"] [5]) 1 none .rejected,
   .encrypt "pw",
   .lock,
   .crashRestart,
   .unlock "pw",
   .relay "Qdemo" 5 (.message [1, 2, 3]) 1 none .aborted]

theorem C1_ots_cursor_monotone_witness :
    ∃ c', cursorOf (runOps c1DemoState c1DemoOps) "Qdemo" = some c' ∧ 0 ≤ c' :=
  C1_ots_cursor_monotone c1DemoState c1DemoOps (by decide) "Qdemo" 0 (by decide)

/-! ## Claim C2: the OTS gate on a concrete relay scenario -/

def c2Seed : List Nat := List.replicate 51 9

/-- The wallet right after AddNewAddress with height 4 (cursor 0). -/
def c2State : DaemonState :=
  match add_new_address emptyDaemon 4 c2Seed with
  | .ok p => p.2
  | .error _ => emptyDaemon

def c2Q : String := xmss_qaddress c2Seed

def c2Dests : List String := ["Qalice", "Qbob"]

def c2Amounts : List Nat := [1000000000, 1000000000]

/-- Claim C2: on a wallet whose address was created with height 4 (cursor
0), relay_transfer_txn with two destinations, amounts one Quanta each, fee
100000000 and ots_index 0 against a node answering SUBMITTED returns a
transaction signed at leaf 0 and sets the cursor to 1; re-invoking with
ots_index 0 then fails with OtsIndexConflict and changes nothing, because
the supplied index must equal or exceed the stored cursor — and it must be
below 2 to the height, as the last conjunct shows at index 16 = 2 ^ 4. -/
theorem C2_relay_transfer_ots_gate :
    (∃ tx, (relay_transfer_txn c2State c2Dests c2Amounts 100000000 none c2Q 0
        .submitted).1 = .ok tx
      ∧ tx.signature = xmss_sign c2Seed 0
      ∧ tx.otsIndexUsed = 0)
    ∧ cursorOf (relay_transfer_txn c2State c2Dests c2Amounts 100000000 none c2Q 0
        .submitted).2 c2Q = some 1
    ∧ (relay_transfer_txn
        (relay_transfer_txn c2State c2Dests c2Amounts 100000000 none c2Q 0
          .submitted).2
        c2Dests c2Amounts 100000000 none c2Q 0 .submitted).1
        = .error .otsIndexConflict
    ∧ (relay_transfer_txn
        (relay_transfer_txn c2State c2Dests c2Amounts 100000000 none c2Q 0
          .submitted).2
        c2Dests c2Amounts 100000000 none c2Q 0 .submitted).2
        = (relay_transfer_txn c2State c2Dests c2Amounts 100000000 none c2Q 0
          .submitted).2
    ∧ (relay_transfer_txn
        (relay_transfer_txn c2State c2Dests c2Amounts 100000000 none c2Q 0
          .submitted).2
        c2Dests c2Amounts 100000000 none c2Q 16 .submitted).1
        = .error .otsExhausted := by
  refine ⟨⟨_, rfl, rfl, rfl⟩, rfl, rfl, rfl, rfl⟩

/-! ## Claim C4: what a LOCKED wallet allows -/

/-- Claim C4: whenever the wallet is LOCKED, add_new_address,
get_recovery_seeds and all five relay operations fail with WalletLocked,
while the read-only operations that do not need the seed — listing
addresses, wallet info, balance queries and get_transaction — still
succeed. -/
theorem C4_locked_gating (s : DaemonState) (hlock : s.locked = true)
    (height : Nat) (freshSeed : List Nat) (q : String)
    (dests : List String) (amounts : List Nat) (fee : Nat)
    (master : Option String) (otsIdx : Nat) (node : NodeResp)
    (msg symbol tokenName : List Nat) (owner : String) (decimals : Nat)
    (tokenTxhash : String) (slavePks : List (List Nat))
    (accessTypes : List Nat) (nodeBalance : Nat) (nodeTx : SignedTx)
    (confirmations : Nat) (txhash : String) :
    add_new_address s height freshSeed = .error .walletLocked
    ∧ get_recovery_seeds s q = .error .walletLocked
    ∧ (relay_transfer_txn s dests amounts fee master q otsIdx node).1
        = .error .walletLocked
    ∧ (relay_message_txn s msg fee master q otsIdx node).1
        = .error .walletLocked
    ∧ (relay_token_txn s symbol tokenName owner decimals dests amounts fee
        master q otsIdx node).1 = .error .walletLocked
    ∧ (relay_transfer_token_txn s dests amounts tokenTxhash fee master q
        otsIdx node).1 = .error .walletLocked
    ∧ (relay_slave_txn s slavePks accessTypes fee master q otsIdx node).1
        = .error .walletLocked
    ∧ list_address s = .ok (s.items.map (·.qaddress))
    ∧ get_wallet_info s = .ok (1, s.items.length, s.encrypted)
    ∧ get_balance s q nodeBalance = .ok nodeBalance
    ∧ get_transaction s txhash nodeTx confirmations
        = .ok (nodeTx, confirmations) := by
  refine ⟨?_, ?_, ?_, ?_, ?_, ?_, ?_, rfl, rfl, rfl, rfl⟩ <;>
    simp [add_new_address, get_recovery_seeds, relay_transfer_txn,
      relay_message_txn, relay_token_txn, relay_transfer_token_txn,
      relay_slave_txn, relay_txn, hlock]

def c4State : DaemonState :=
  ⟨[⟨"Qw", List.replicate 51 3, 4, 0⟩], true, true, some "pw"⟩

theorem C4_locked_gating_witness :
    add_new_address c4State 4 (List.replicate 51 5) = .error .walletLocked
    ∧ get_recovery_seeds c4State "Qw" = .error .walletLocked :=
  have h := C4_locked_gating c4State rfl 4 (List.replicate 51 5) "Qw"
    ["Qa"] [1] 1 none 0 .submitted [1] [2] [3] "Qo" 1 "th" [[1]] [0] 7
    ⟨"Qw", none, 1, .message [1], 0, xmss_sign [] 0⟩ 2 "h"
  ⟨h.1, h.2.1⟩

/-! ## Claim C5: encrypt, lock, unlock -/

/-- Claim C5: encrypting a wallet with passphrase p and locking it, an
unlock with q different from p fails with WalletDecryption and the wallet
stays locked; unlocking with p succeeds, the address list is exactly what
it was before encrypting, and mutating operations such as add_new_address
work again. -/
theorem C5_encrypt_lock_unlock (s : DaemonState) (p q : String) (hpq : q ≠ p)
    (henc : s.encrypted = false) (hlock : s.locked = false)
    (hne : s.items.length ≠ 0) (height : Nat) (freshSeed : List Nat) :
    ∃ s1 s2, encrypt_wallet s p = .ok s1
      ∧ lock_wallet s1 = .ok s2
      ∧ s2.locked = true
      ∧ unlock_wallet s2 q = .error .walletDecryption
      ∧ (stepState s2 (.unlock q)).locked = true
      ∧ ∃ s3, unlock_wallet s2 p = .ok s3
        ∧ s3.locked = false
        ∧ s3.items.map (·.qaddress) = s.items.map (·.qaddress)
        ∧ (add_new_address s3 height freshSeed).map Prod.fst
            = .ok (xmss_qaddress freshSeed) := by
  have hqp : p ≠ q := Ne.symm hpq
  refine ⟨{ s with encrypted := true, passphrase := some p },
         { s with encrypted := true, locked := true, passphrase := some p },
         ?_, ?_, rfl, ?_, ?_,
         { s with encrypted := true, locked := false, passphrase := some p },
         ?_, rfl, rfl, ?_⟩
  · simp [encrypt_wallet, hlock, henc, hne]
  · simp [lock_wallet]
  · simp [unlock_wallet, hqp]
  · simp [stepState, unlock_wallet, hqp]
  · simp [unlock_wallet]
  · simp [add_new_address, Except.map]

def c5State : DaemonState :=
  ⟨[⟨"Qw", List.replicate 51 3, 4, 0⟩], false, false, none⟩

theorem C5_encrypt_lock_unlock_witness :
    ∃ s1 s2, encrypt_wallet c5State "secret" = .ok s1
      ∧ lock_wallet s1 = .ok s2
      ∧ s2.locked = true
      ∧ unlock_wallet s2 "wrong" = .error .walletDecryption
      ∧ (stepState s2 (.unlock "wrong")).locked = true
      ∧ ∃ s3, unlock_wallet s2 "secret" = .ok s3
        ∧ s3.locked = false
        ∧ s3.items.map (·.qaddress) = c5State.items.map (·.qaddress)
        ∧ (add_new_address s3 4 (List.replicate 51 5)).map Prod.fst
            = .ok (xmss_qaddress (List.replicate 51 5)) :=
  C5_encrypt_lock_unlock c5State "secret" "wrong" (by decide) rfl rfl
    (by decide) 4 (List.replicate 51 5)

/-! ## Claim C6: passphrase change -/

/-- Claim C6: on an encrypted wallet, change_passphrase with a wrong old
passphrase fails and leaves the state unchanged; with the correct old
passphrase it succeeds, after which unlocking with the old passphrase
fails with WalletDecryption, unlocking with the new one succeeds, and the
address list is preserved. -/
theorem C6_change_passphrase_roundtrip (s : DaemonState)
    (oldPw newPw wrongPw : String) (hw : wrongPw ≠ oldPw)
    (hn : newPw ≠ oldPw) (henc : s.encrypted = true)
    (hpw : s.passphrase = some oldPw) :
    change_passphrase s wrongPw newPw = .error .walletDecryption
    ∧ stepState s (.changePw wrongPw newPw) = s
    ∧ ∃ s1, change_passphrase s oldPw newPw = .ok s1
      ∧ s1.items.map (·.qaddress) = s.items.map (·.qaddress)
      ∧ unlock_wallet s1 oldPw = .error .walletDecryption
      ∧ ∃ s2, unlock_wallet s1 newPw = .ok s2
        ∧ s2.items.map (·.qaddress) = s.items.map (·.qaddress) := by
  have hw' : oldPw ≠ wrongPw := Ne.symm hw
  have hn' : oldPw ≠ newPw := Ne.symm hn
  refine ⟨?_, ?_, { s with passphrase := some newPw }, ?_, rfl, ?_,
         { s with locked := false, passphrase := some newPw }, ?_, rfl⟩
  · simp [change_passphrase, henc, hpw, hw']
  · simp [stepState, change_passphrase, henc, hpw, hw']
  · simp [change_passphrase, henc, hpw]
  · simp [unlock_wallet, henc, hn]
  · simp [unlock_wallet, henc]

def c6State : DaemonState :=
  ⟨[⟨"Qw", List.replicate 51 3, 4, 0⟩], true, true, some "first"⟩

theorem C6_change_passphrase_roundtrip_witness :
    change_passphrase c6State "bad" "second" = .error .walletDecryption
    ∧ stepState c6State (.changePw "bad" "second") = c6State
    ∧ ∃ s1, change_passphrase c6State "first" "second" = .ok s1
      ∧ s1.items.map (·.qaddress) = c6State.items.map (·.qaddress)
      ∧ unlock_wallet s1 "first" = .error .walletDecryption
      ∧ ∃ s2, unlock_wallet s1 "second" = .ok s2
        ∧ s2.items.map (·.qaddress) = c6State.items.map (·.qaddress) :=
  C6_change_passphrase_roundtrip c6State "first" "second" "bad"
    (by decide) (by decide) rfl rfl

/-! ## Claim C7: the literal seed scenario -/

/-- Claim C7: add_address_from_seed applied to the 102-character scenario
hex seed returns exactly the scenario qaddress, and applied to the
corresponding 34-word mnemonic (absorb drank lute brick ...) returns the
same qaddress. -/
theorem C7_scenario_seed_qaddress :
    (add_address_from_seed emptyDaemon (.hexSeed scenarioHex)).map Prod.fst
        = .ok scenarioQaddress
    ∧ (add_address_from_seed emptyDaemon (.mnemonicWords scenarioWords)).map
        Prod.fst = .ok scenarioQaddress
    ∧ scenarioWords.length = 34
    ∧ scenarioWords.take 9
        = ["absorb", "drank", "lute", "brick", "cure", "evil", "inept",
           "group", "grey"] := by
  refine ⟨by rfl, by rfl, by rfl, by rfl⟩

/-! ## Claim C8: recovery seeds round-trip -/

/-- A well-formed extended seed: 51 bytes, each below 256 (section 3). -/
def SeedWF (bs : List Nat) : Prop := bs.length = 51 ∧ ∀ b ∈ bs, b < 256

instance (bs : List Nat) : Decidable (SeedWF bs) := by
  unfold SeedWF
  infer_instance

theorem find?_seed_filtered (s : DaemonState) (it : AddressItem)
    (hit : it ∈ s.items)
    (hinv : ∀ j ∈ s.items, j.qaddress = xmss_qaddress j.seed) :
    (s.items.filter (fun j => j.qaddress != it.qaddress)).find?
      (fun j => j.seed == it.seed) = none := by
  rw [List.find?_eq_none]
  intro j hj hseed
  have hj' : j ∈ s.items := (List.mem_filter.mp hj).1
  have hfilter : (j.qaddress != it.qaddress) = true := (List.mem_filter.mp hj).2
  have hseed' : j.seed = it.seed := eq_of_beq hseed
  have hsame : j.qaddress = it.qaddress := by
    rw [hinv j hj', hinv it hit, hseed']
  simp [hsame] at hfilter

/-- Claim C8: for an address item of the wallet, get_recovery_seeds
returns a hex seed and a mnemonic such that, after remove_address of that
item, add_address_from_seed on either form recreates exactly the original
qaddress. -/
theorem C8_recovery_seeds_roundtrip (s : DaemonState) (it : AddressItem)
    (hfind : s.items.find? (fun j => j.qaddress == it.qaddress) = some it)
    (hlock : s.locked = false) (hwf : SeedWF it.seed)
    (hinv : ∀ j ∈ s.items, j.qaddress = xmss_qaddress j.seed) :
    ∃ hexseed mnemonic,
      get_recovery_seeds s it.qaddress = .ok (hexseed, mnemonic)
      ∧ ∃ s1, remove_address s it.qaddress = .ok (true, s1)
        ∧ (add_address_from_seed s1 (.hexSeed hexseed)).map Prod.fst
            = .ok it.qaddress
        ∧ (add_address_from_seed s1 (.mnemonicWords mnemonic)).map Prod.fst
            = .ok it.qaddress := by
  obtain ⟨hlen, hbytes⟩ := hwf
  have hit : it ∈ s.items := List.mem_of_find?_eq_some hfind
  have hqit : it.qaddress = xmss_qaddress it.seed := hinv it hit
  have hmod : it.seed.length % 3 = 0 := by rw [hlen]
  refine ⟨bin2hstr it.seed, (bytesToIdx it.seed).map wordOfIdx, ?_, ?_⟩
  · unfold get_recovery_seeds
    simp [hlock, hfind]
  · refine ⟨{ s with items := s.items.filter (fun j => j.qaddress != it.qaddress) },
           ?_, ?_, ?_⟩
    · unfold remove_address
      have hany : s.items.any (fun j => j.qaddress == it.qaddress) = true := by
        rw [List.any_eq_true]
        exact ⟨it, hit, by simp⟩
      simp [hlock, hany]
    · unfold add_address_from_seed
      have hl102 : (bin2hstr it.seed).length = 102 := by
        rw [bin2hstr_length, hlen]
      simp only [hlock, Bool.false_eq_true, if_false, parseSeedInput, hl102,
        if_true, hstr2bin_bin2hstr it.seed hbytes]
      simp only [find?_seed_filtered s it hit hinv]
      simp [Except.map, hqit]
    · unfold add_address_from_seed
      have hlen34 : ((bytesToIdx it.seed).map wordOfIdx).length = 34 := by
        rw [List.length_map, bytesToIdx_length it.seed hmod, hlen]
      have hlook : lookupWords ((bytesToIdx it.seed).map wordOfIdx)
          = some (bytesToIdx it.seed) :=
        lookupWords_wordOfIdx (bytesToIdx it.seed) (bytesToIdx_lt it.seed hbytes)
      have hback : idxToBytes (bytesToIdx it.seed) = it.seed :=
        idxToBytes_bytesToIdx it.seed hmod hbytes
      simp only [hlock, Bool.false_eq_true, if_false, parseSeedInput, hlen34,
        if_true, hlook, hback]
      simp only [find?_seed_filtered s it hit hinv]
      simp [Except.map, hqit]

def c8Seed : List Nat := List.replicate 51 1

def c8Item : AddressItem := ⟨xmss_qaddress c8Seed, c8Seed, 4, 2⟩

def c8State : DaemonState := ⟨[c8Item], false, false, none⟩

theorem C8_recovery_seeds_roundtrip_witness :
    ∃ hexseed mnemonic,
      get_recovery_seeds c8State c8Item.qaddress = .ok (hexseed, mnemonic)
      ∧ ∃ s1, remove_address c8State c8Item.qaddress = .ok (true, s1)
        ∧ (add_address_from_seed s1 (.hexSeed hexseed)).map Prod.fst
            = .ok c8Item.qaddress
        ∧ (add_address_from_seed s1 (.mnemonicWords mnemonic)).map Prod.fst
            = .ok c8Item.qaddress :=
  C8_recovery_seeds_roundtrip c8State c8Item (by decide) rfl (by decide)
    (by decide)

/-! ## Wallet RPC service (src/qrl/services/WalletAPIService.py)

Each handler builds a fresh protobuf response (status defaults to 0, ok),
calls the underlying walletd operation inside try/except, and on any
exception sets status to 1 and error_message to the exception's text.  The
walletd call's outcome is the handler's argument here: Except.error
carries the exception text, Except.ok the returned value. -/

/-- A response envelope: status (0 = ok, the protobuf default),
error_message, and the method's payload when one was set. -/
structure RpcResp (α : Type) where
  status : Nat := 0
  error_message : String := ""
  payload : Option α := none
deriving DecidableEq, Repr

/-- The try/except pattern shared by every handler of WalletAPIService:
a normal return feeds the response filler, an exception yields status 1
and error_message = str(e).  Totality of this function is the model of
"the exception never escapes the handler". -/
def handleCall {α β : Type} (fill : α → RpcResp β) :
    Except String α → RpcResp β
  | .ok a => fill a
  | .error e => { status := 1, error_message := e }

/-- From WalletAPIService.AddNewAddress (lines 16-25). -/
def serviceAddNewAddress (r : Except String String) : RpcResp String :=
  handleCall (fun a => { payload := some a }) r

/-- From WalletAPIService.AddAddressFromSeed (lines 27-36). -/
def serviceAddAddressFromSeed (r : Except String String) : RpcResp String :=
  handleCall (fun a => { payload := some a }) r

/-- From WalletAPIService.ListAddresses (lines 38-47). -/
def serviceListAddresses (r : Except String (List String)) :
    RpcResp (List String) :=
  handleCall (fun a => { payload := some a }) r

/-- From WalletAPIService.RemoveAddress (lines 49-60): when
walletd.remove_address returns False the handler also sets status 1 with
the fixed message, although no exception was raised. -/
def serviceRemoveAddress (r : Except String Bool) : RpcResp Unit :=
  handleCall (fun found =>
    if found then {}
    else { status := 1, error_message := "No such address found" }) r

/-- From WalletAPIService.GetRecoverySeeds (lines 62-71). -/
def serviceGetRecoverySeeds (r : Except String (String × String)) :
    RpcResp (String × String) :=
  handleCall (fun a => { payload := some a }) r

/-- From WalletAPIService.GetWalletInfo (lines 73-82). -/
def serviceGetWalletInfo (r : Except String (Nat × Nat × Bool)) :
    RpcResp (Nat × Nat × Bool) :=
  handleCall (fun a => { payload := some a }) r

/-- From WalletAPIService.RelayTransferTxn (lines 84-98). -/
def serviceRelayTransferTxn (r : Except String SignedTx) : RpcResp SignedTx :=
  handleCall (fun a => { payload := some a }) r

/-- From WalletAPIService.RelayMessageTxn (lines 100-113). -/
def serviceRelayMessageTxn (r : Except String SignedTx) : RpcResp SignedTx :=
  handleCall (fun a => { payload := some a }) r

/-- From WalletAPIService.RelayTokenTxn (lines 115-133). -/
def serviceRelayTokenTxn (r : Except String SignedTx) : RpcResp SignedTx :=
  handleCall (fun a => { payload := some a }) r

/-- From WalletAPIService.RelayTransferTokenTxn (lines 135-150). -/
def serviceRelayTransferTokenTxn (r : Except String SignedTx) :
    RpcResp SignedTx :=
  handleCall (fun a => { payload := some a }) r

/-- From WalletAPIService.RelaySlaveTxn (lines 152-166). -/
def serviceRelaySlaveTxn (r : Except String SignedTx) : RpcResp SignedTx :=
  handleCall (fun a => { payload := some a }) r

/-- From WalletAPIService.EncryptWallet (lines 168-177). -/
def serviceEncryptWallet (r : Except String Unit) : RpcResp Unit :=
  handleCall (fun _ => {}) r

/-- From WalletAPIService.LockWallet (lines 179-188). -/
def serviceLockWallet (r : Except String Unit) : RpcResp Unit :=
  handleCall (fun _ => {}) r

/-- From WalletAPIService.UnlockWallet (lines 190-199). -/
def serviceUnlockWallet (r : Except String Unit) : RpcResp Unit :=
  handleCall (fun _ => {}) r

/-- From WalletAPIService.ChangePassphrase (lines 201-210). -/
def serviceChangePassphrase (r : Except String Unit) : RpcResp Unit :=
  handleCall (fun _ => {}) r

/-- From WalletAPIService.GetTransaction (lines 212-223). -/
def serviceGetTransaction (r : Except String (SignedTx × Nat)) :
    RpcResp (SignedTx × Nat) :=
  handleCall (fun a => { payload := some a }) r

/-- From WalletAPIService.GetBalance (lines 225-234). -/
def serviceGetBalance (r : Except String Nat) : RpcResp Nat :=
  handleCall (fun a => { payload := some a }) r

/-- From WalletAPIService.GetOTS (lines 236-247). -/
def serviceGetOTS (r : Except String (List Nat × Nat)) :
    RpcResp (List Nat × Nat) :=
  handleCall (fun a => { payload := some a }) r

/-- From WalletAPIService.GetHeight (lines 249-258). -/
def serviceGetHeight (r : Except String Nat) : RpcResp Nat :=
  handleCall (fun a => { payload := some a }) r

/-- From WalletAPIService.GetBlock (lines 260-269). -/
def serviceGetBlock (r : Except String String) : RpcResp String :=
  handleCall (fun a => { payload := some a }) r

/-- From WalletAPIService.GetBlockByNumber (lines 271-280). -/
def serviceGetBlockByNumber (r : Except String String) : RpcResp String :=
  handleCall (fun a => { payload := some a }) r

/-- The envelope discipline claimed for a handler: an exception maps to
status 1 with the exception's text as error_message, a normal return
leaves status 0. -/
def envelopeOk {α β : Type} (handler : Except String α → RpcResp β) : Prop :=
  ∀ r : Except String α, match r with
    | .error e => (handler r).status = 1 ∧ (handler r).error_message = e
    | .ok _ => (handler r).status = 0

theorem envelopeOk_handleCall {α β : Type} (fill : α → RpcResp β)
    (hfill : ∀ a, (fill a).status = 0) : envelopeOk (handleCall fill) := by
  unfold envelopeOk
  intro r
  cases r with
  | error e => exact ⟨rfl, rfl⟩
  | ok a => exact hfill a

/-- Claim C3 as stated is false on the code: the RemoveAddress handler
returns status 1 with error_message "No such address found" when
walletd.remove_address returns False, although the operation did not
raise. -/
theorem C3_counterexample_remove_address :
    (serviceRemoveAddress (Except.ok false)).status = 1
    ∧ ¬ (serviceRemoveAddress (Except.ok false)).status = 0
    ∧ (serviceRemoveAddress (Except.ok false)).error_message
        = "No such address found" := by
  refine ⟨rfl, by decide, rfl⟩

/-- Claim C3, amended: for every wallet-daemon RPC method, an exception
from the underlying wallet operation yields status 1 with the exception's
text as error_message and never escapes the handler (the handlers are
total functions); when the operation does not raise, status stays 0 —
except RemoveAddress, which also reports status 1 with error_message
"No such address found" when remove_address returns False without
raising. -/
theorem C3_rpc_envelope :
    envelopeOk serviceAddNewAddress
    ∧ envelopeOk serviceAddAddressFromSeed
    ∧ envelopeOk serviceListAddresses
    ∧ envelopeOk serviceGetRecoverySeeds
    ∧ envelopeOk serviceGetWalletInfo
    ∧ envelopeOk serviceRelayTransferTxn
    ∧ envelopeOk serviceRelayMessageTxn
    ∧ envelopeOk serviceRelayTokenTxn
    ∧ envelopeOk serviceRelayTransferTokenTxn
    ∧ envelopeOk serviceRelaySlaveTxn
    ∧ envelopeOk serviceEncryptWallet
    ∧ envelopeOk serviceLockWallet
    ∧ envelopeOk serviceUnlockWallet
    ∧ envelopeOk serviceChangePassphrase
    ∧ envelopeOk serviceGetTransaction
    ∧ envelopeOk serviceGetBalance
    ∧ envelopeOk serviceGetOTS
    ∧ envelopeOk serviceGetHeight
    ∧ envelopeOk serviceGetBlock
    ∧ envelopeOk serviceGetBlockByNumber
    ∧ (∀ r : Except String Bool,
        match r with
        | .error e => (serviceRemoveAddress r).status = 1
            ∧ (serviceRemoveAddress r).error_message = e
        | .ok true => (serviceRemoveAddress r).status = 0
        | .ok false => (serviceRemoveAddress r).status = 1
            ∧ (serviceRemoveAddress r).error_message
                = "No such address found") := by
  refine ⟨envelopeOk_handleCall _ (fun a => rfl),
    envelopeOk_handleCall _ (fun a => rfl),
    envelopeOk_handleCall _ (fun a => rfl),
    envelopeOk_handleCall _ (fun a => rfl),
    envelopeOk_handleCall _ (fun a => rfl),
    envelopeOk_handleCall _ (fun a => rfl),
    envelopeOk_handleCall _ (fun a => rfl),
    envelopeOk_handleCall _ (fun a => rfl),
    envelopeOk_handleCall _ (fun a => rfl),
    envelopeOk_handleCall _ (fun a => rfl),
    envelopeOk_handleCall _ (fun a => rfl),
    envelopeOk_handleCall _ (fun a => rfl),
    envelopeOk_handleCall _ (fun a => rfl),
    envelopeOk_handleCall _ (fun a => rfl),
    envelopeOk_handleCall _ (fun a => rfl),
    envelopeOk_handleCall _ (fun a => rfl),
    envelopeOk_handleCall _ (fun a => rfl),
    envelopeOk_handleCall _ (fun a => rfl),
    envelopeOk_handleCall _ (fun a => rfl),
    envelopeOk_handleCall _ (fun a => rfl),
    ?_⟩
  intro r
  cases r with
  | error e => exact ⟨rfl, rfl⟩
  | ok b =>
      cases b with
      | true => exact rfl
      | false => exact ⟨rfl, rfl⟩

/-! ## CLI tx_token (src/qrl/cli.py) -/

/-- From src/qrl/cli.py: config.dev.max_token_name_length.  The config
module is not under src/; the value is the spec's name bound (a name of at
most 30 bytes). -/
def max_token_name_length : Nat := 30

/-- From src/qrl/cli.py, tx_token lines 756-759: the length validation.
The name AND the symbol are both compared against
config.dev.max_token_name_length; the error strings are the formatted
messages the code raises. -/
def tx_token_length_check (symbol tokenName : String) : Except String Unit :=
  if max_token_name_length < tokenName.length then
    .error "Token name must be shorter than 30 chars"
  else if max_token_name_length < symbol.length then
    .error "Token symbol must be shorter than 30 chars"
  else .ok ()

/-- Claim C9 meets a code bug: tx_token checks the symbol against the
30-byte name bound instead of the 10-byte symbol bound, so an 11-byte
symbol passes the length checks, contradicting the spec's symbol bound;
the name bound itself and the acceptance of in-bound values behave as
claimed, and an over-long symbol is rejected only past 30 bytes, with a
message built from the name bound. -/
theorem C9_symbol_check_uses_name_bound :
    ("ABCDEFGHIJK".length = 11
      ∧ tx_token_length_check "ABCDEFGHIJK" "T" = .ok ())
    ∧ tx_token_length_check "S" ⟨List.replicate 31 'n'⟩
        = .error "Token name must be shorter than 30 chars"
    ∧ tx_token_length_check ⟨List.replicate 31 's'⟩ "T"
        = .error "Token symbol must be shorter than 30 chars"
    ∧ tx_token_length_check "ABCDEFGHIJ" ⟨List.replicate 30 'n'⟩ = .ok () := by
  refine ⟨⟨rfl, rfl⟩, rfl, rfl, rfl⟩

/-- From src/qrl/cli.py, tx_token lines 750-752 and 770-777: the master
address handling.  master_addr is initialized to None and the guard tests
master_addr itself (None is falsy in Python) instead of the master option;
the value returned here is what tx_token passes to
TokenTransaction.create as master_addr.  parse_qaddress lives in
qrl.core.misc.helper, not under src/, so it is an explicit argument. -/
def tx_token_master_addr (parseQaddress : String → List Nat)
    (master : String) : Option (List Nat) :=
  let master_addr : Option (List Nat) := none
  if master_addr.isSome then some (parseQaddress master) else master_addr

/-- Claim C10: whatever master argument is supplied and whatever
parse_qaddress does, tx_token's guard never fires: the master address
passed to TokenTransaction.create is None. -/
theorem C10_master_addr_always_none (parseQaddress : String → List Nat)
    (master : String) :
    tx_token_master_addr parseQaddress master = none := rfl

theorem C10_master_addr_always_none_witness :
    tx_token_master_addr (fun _ => [1, 2, 3]) "Qmaster" = none :=
  C10_master_addr_always_none (fun _ => [1, 2, 3]) "Qmaster"

end QRL
